import Mathlib

/-!
Verification development for the Windows file-system notification core of
native-platform (`src/file-events/headers/win_fsnotifier.h`).

The header declares the interface: `WatchPoint` (per-directory watch state,
an `OVERLAPPED` context and one `FILE_NOTIFY_INFORMATION* buffer`), the
status constants `WATCH_LISTENING` (1), `WATCH_NOT_LISTENING` (2),
`WATCH_FINISHED` (3), `WATCH_UNINITIALIZED` (-1), `WATCH_FAILED_TO_LISTEN`
(-2), the macros `EVENT_BUFFER_SIZE` and `EVENT_MASK`, and `Server` with
`startWatching` / `stopWatching` / `reportEvent` / `reportFinished` over an
`unordered_map<u16string, WatchPoint> watchPoints`.

The function bodies (buffer decoding in `handleEvent` / `handlePathChanged`,
the run loop, start/stop handling) are not part of the available sources, so
they are modelled from the specification; the macro values and the declared
data layout are taken from the header itself.
-/

/-- `EVENT_BUFFER_SIZE` from `win_fsnotifier.h`: `#define EVENT_BUFFER_SIZE (16 * 1024)`. -/
def EVENT_BUFFER_SIZE : Nat := 16 * 1024

/-- Windows `winnt.h` value `FILE_NOTIFY_CHANGE_FILE_NAME = 0x00000001`. -/
def FILE_NOTIFY_CHANGE_FILE_NAME : Nat := 0x00000001

/-- Windows `winnt.h` value `FILE_NOTIFY_CHANGE_DIR_NAME = 0x00000002`. -/
def FILE_NOTIFY_CHANGE_DIR_NAME : Nat := 0x00000002

/-- Windows `winnt.h` value `FILE_NOTIFY_CHANGE_ATTRIBUTES = 0x00000004`. -/
def FILE_NOTIFY_CHANGE_ATTRIBUTES : Nat := 0x00000004

/-- Windows `winnt.h` value `FILE_NOTIFY_CHANGE_SIZE = 0x00000008`. -/
def FILE_NOTIFY_CHANGE_SIZE : Nat := 0x00000008

/-- Windows `winnt.h` value `FILE_NOTIFY_CHANGE_LAST_WRITE = 0x00000010`. -/
def FILE_NOTIFY_CHANGE_LAST_WRITE : Nat := 0x00000010

/-- Windows `winnt.h` value `FILE_NOTIFY_CHANGE_LAST_ACCESS = 0x00000020`. -/
def FILE_NOTIFY_CHANGE_LAST_ACCESS : Nat := 0x00000020

/-- Windows `winnt.h` value `FILE_NOTIFY_CHANGE_CREATION = 0x00000040`. -/
def FILE_NOTIFY_CHANGE_CREATION : Nat := 0x00000040

/-- Windows `winnt.h` value `FILE_NOTIFY_CHANGE_SECURITY = 0x00000100`. -/
def FILE_NOTIFY_CHANGE_SECURITY : Nat := 0x00000100

/-- `EVENT_MASK` from `win_fsnotifier.h`:
`FILE_NOTIFY_CHANGE_FILE_NAME | FILE_NOTIFY_CHANGE_DIR_NAME |
FILE_NOTIFY_CHANGE_ATTRIBUTES | FILE_NOTIFY_CHANGE_SIZE |
FILE_NOTIFY_CHANGE_LAST_WRITE`. -/
def EVENT_MASK : Nat :=
  FILE_NOTIFY_CHANGE_FILE_NAME ||| FILE_NOTIFY_CHANGE_DIR_NAME |||
  FILE_NOTIFY_CHANGE_ATTRIBUTES ||| FILE_NOTIFY_CHANGE_SIZE |||
  FILE_NOTIFY_CHANGE_LAST_WRITE

/-- A change class is watched iff its bit is set in the registered mask. -/
def notifies (mask changeClass : Nat) : Bool := mask &&& changeClass != 0

/-- Modelled from the spec: the OS produces a notification record for a
change exactly when the change class is inside the mask the watch was
registered with (the `ReadDirectoryChangesW` registration call is not under
the available sources; the mask itself is `EVENT_MASK` from the header). -/
def osProducesRecord (changeClass : Nat) : Bool := notifies EVENT_MASK changeClass

/-- Error kinds of the service, from spec section 7. -/
inductive WatchError where
  | pathNotFound
  | accessDenied
  | alreadyWatched
  | notWatched
  | malformedNotification
  | watchOverflow
  | osCancelled
  | unexpectedOsFailure
  deriving DecidableEq

/-- Change types decoded from a notification record, from spec section 4.1;
they correspond to Windows `FILE_ACTION_*` codes. -/
inductive ChangeType where
  | created
  | deleted
  | modified
  | renamedOld
  | renamedNew
  deriving DecidableEq

/-- Windows `FILE_ACTION_*` code to change type (`FILE_ACTION_ADDED = 1`,
`FILE_ACTION_REMOVED = 2`, `FILE_ACTION_MODIFIED = 3`,
`FILE_ACTION_RENAMED_OLD_NAME = 4`, `FILE_ACTION_RENAMED_NEW_NAME = 5`). -/
def toChangeType (action : Nat) : Option ChangeType :=
  if action = 1 then some ChangeType.created
  else if action = 2 then some ChangeType.deleted
  else if action = 3 then some ChangeType.modified
  else if action = 4 then some ChangeType.renamedOld
  else if action = 5 then some ChangeType.renamedNew
  else none

/-- One byte of the change-log buffer (out-of-range indices read as 0; the
decoder only ever reads guarded indices below the reported byte count). -/
def read8 (buf : List Nat) (i : Nat) : Nat := buf.getD i 0

/-- A 32-bit little-endian field of the buffer, as laid out in
`FILE_NOTIFY_INFORMATION` (`NextEntryOffset`, `Action`, `FileNameLength`). -/
def read32 (buf : List Nat) (i : Nat) : Nat :=
  read8 buf i + 256 * read8 buf (i + 1) + 65536 * read8 buf (i + 2) +
    16777216 * read8 buf (i + 3)

/-- `k` UTF-16LE code units starting at byte offset `i` (the `FileName`
field of a `FILE_NOTIFY_INFORMATION` record). -/
def readUnits (buf : List Nat) : Nat → Nat → List Nat
  | _, 0 => []
  | i, k + 1 => (read8 buf i + 256 * read8 buf (i + 1)) :: readUnits buf (i + 2) k

/-- Modelled from the spec: the record-stream decode loop of
`WatchPoint::handleEvent` / `WatchPoint::handlePathChanged` (bodies not under
the available sources). Each `FILE_NOTIFY_INFORMATION` record holds a 4-byte
`NextEntryOffset` (0 marks the last record), a 4-byte `Action`, a 4-byte
`FileNameLength` in bytes and then the path; the decoder never reads past
the reported byte count `n` and fails with `malformedNotification` when a
record's declared length would overrun it; a zero-length path is a no-op
record. `fuel` only bounds recursion; offsets strictly increase, so
`fuel = n + 1` never runs out. -/
def decodeAux (buf : List Nat) (n : Nat) :
    Nat → Nat → Except WatchError (List (ChangeType × List Nat))
  | 0, _ => Except.error WatchError.malformedNotification
  | fuel + 1, off =>
    if off + 12 ≤ n then
      if off + 12 + read32 buf (off + 8) ≤ n then
        if read32 buf (off + 8) = 0 then
          if read32 buf off = 0 then Except.ok []
          else decodeAux buf n fuel (off + read32 buf off)
        else
          match toChangeType (read32 buf (off + 4)) with
          | some ct =>
            if read32 buf off = 0 then
              Except.ok [(ct, readUnits buf (off + 12) (read32 buf (off + 8) / 2))]
            else
              (decodeAux buf n fuel (off + read32 buf off)).map
                (fun rest =>
                  (ct, readUnits buf (off + 12) (read32 buf (off + 8) / 2)) :: rest)
          | none => Except.error WatchError.malformedNotification
      else Except.error WatchError.malformedNotification
    else Except.error WatchError.malformedNotification

/-- Decode one buffer snapshot with its reported byte count (spec 4.1). -/
def decodeEvents (buf : List Nat) (n : Nat) :
    Except WatchError (List (ChangeType × List Nat)) :=
  decodeAux buf n (n + 1) 0

/-- UTF-16 code units of the path "/a.txt". -/
def pathA : List Nat := [47, 97, 46, 116, 120, 116]

/-- UTF-16 code units of the path "/b.txt". -/
def pathB : List Nat := [47, 98, 46, 116, 120, 116]

/-- The 48-byte buffer of spec section 8: a Created record for "/a.txt"
(NextEntryOffset 24, Action 1, FileNameLength 12) followed by a Modified
record for "/b.txt" (NextEntryOffset 0, Action 3, FileNameLength 12). -/
def twoRecordBuffer : List Nat :=
  [24, 0, 0, 0, 1, 0, 0, 0, 12, 0, 0, 0,
   47, 0, 97, 0, 46, 0, 116, 0, 120, 0, 116, 0,
   0, 0, 0, 0, 3, 0, 0, 0, 12, 0, 0, 0,
   47, 0, 98, 0, 46, 0, 116, 0, 120, 0, 116, 0]

lemma getD_take_eq : ∀ (l : List Nat) (n i : Nat), i < n →
    (l.take n).getD i 0 = l.getD i 0 := by
  intro l
  induction l with
  | nil => intro n i _; simp
  | cons a t ih =>
    intro n i hi
    cases n with
    | zero => omega
    | succ n =>
      cases i with
      | zero => simp
      | succ i => simpa using ih n i (by omega)

lemma read8_congr {buf buf' : List Nat} {n : Nat} (h : buf.take n = buf'.take n)
    {i : Nat} (hi : i < n) : read8 buf i = read8 buf' i := by
  unfold read8
  rw [← getD_take_eq buf n i hi, ← getD_take_eq buf' n i hi, h]

lemma read32_congr {buf buf' : List Nat} {n : Nat} (h : buf.take n = buf'.take n)
    {i : Nat} (hi : i + 4 ≤ n) : read32 buf i = read32 buf' i := by
  unfold read32
  rw [read8_congr h (by omega), read8_congr h (by omega),
    read8_congr h (by omega), read8_congr h (by omega)]

lemma readUnits_congr {buf buf' : List Nat} {n : Nat} (h : buf.take n = buf'.take n) :
    ∀ (k i : Nat), i + 2 * k ≤ n → readUnits buf i k = readUnits buf' i k := by
  intro k
  induction k with
  | zero => intro i _; rfl
  | succ k ih =>
    intro i hk
    unfold readUnits
    rw [read8_congr h (by omega), read8_congr h (by omega), ih (i + 2) (by omega)]

/-- The decoder's result depends only on the first `n` bytes of the buffer:
it never reads a byte at or beyond the reported byte count. -/
lemma decodeAux_congr {buf buf' : List Nat} {n : Nat} (h : buf.take n = buf'.take n) :
    ∀ (fuel off : Nat), decodeAux buf n fuel off = decodeAux buf' n fuel off := by
  intro fuel
  induction fuel with
  | zero => intro off; rfl
  | succ fuel ih =>
    intro off
    simp only [decodeAux]
    by_cases h12 : off + 12 ≤ n
    · rw [if_pos h12, if_pos h12]
      have hlen : read32 buf' (off + 8) = read32 buf (off + 8) :=
        (read32_congr h (by omega)).symm
      rw [hlen]
      by_cases hfit : off + 12 + read32 buf (off + 8) ≤ n
      · rw [if_pos hfit, if_pos hfit]
        have hnext : read32 buf' off = read32 buf off :=
          (read32_congr h (by omega)).symm
        have hact : read32 buf' (off + 4) = read32 buf (off + 4) :=
          (read32_congr h (by omega)).symm
        have hunits : readUnits buf' (off + 12) (read32 buf (off + 8) / 2) =
            readUnits buf (off + 12) (read32 buf (off + 8) / 2) :=
          (readUnits_congr h _ _ (by omega)).symm
        rw [hnext, hact, hunits, ih (off + read32 buf off)]
      · rw [if_neg hfit, if_neg hfit]
    · rw [if_neg h12, if_neg h12]

/-- A record whose declared length (12-byte header plus `FileNameLength`)
overruns the reported byte count makes the whole decode fail. -/
lemma decodeAux_overrun {buf : List Nat} {n off : Nat}
    (hbad : n < off + 12 + read32 buf (off + 8)) :
    ∀ fuel, decodeAux buf n fuel off = Except.error WatchError.malformedNotification := by
  intro fuel
  cases fuel with
  | zero => rfl
  | succ fuel =>
    simp only [decodeAux]
    by_cases h12 : off + 12 ≤ n
    · rw [if_pos h12, if_neg (by omega)]
    · rw [if_neg h12]

/-- C1: the Watch Buffer Decoder never reads bytes beyond the reported byte
count (its result is determined by the first `n` bytes of the buffer), and
whenever a record's declared length would overrun the buffer it returns the
`MalformedNotification` error — no pairs from that or any further record —
both at the entry point and at every record offset the loop can reach. -/
theorem c1_decoder_never_overreads (buf buf' : List Nat) (n fuel off : Nat) :
    (buf.take n = buf'.take n → decodeEvents buf n = decodeEvents buf' n) ∧
    (n < off + 12 + read32 buf (off + 8) →
      decodeAux buf n fuel off = Except.error WatchError.malformedNotification) := by
  constructor
  · intro h
    unfold decodeEvents
    exact decodeAux_congr h (n + 1) 0
  · intro hbad
    exact decodeAux_overrun hbad fuel

/-- Witness for C1: concrete buffers agreeing on their first 3 bytes decode
identically with byte count 3, and the empty buffer at byte count 0 fails
with `MalformedNotification`. -/
theorem c1_decoder_never_overreads_witness :
    decodeEvents [1, 2, 3, 9] 3 = decodeEvents [1, 2, 3, 7] 3 ∧
    decodeAux [] 0 5 0 = Except.error WatchError.malformedNotification :=
  ⟨(c1_decoder_never_overreads [1, 2, 3, 9] [1, 2, 3, 7] 3 5 0).1 rfl,
   (c1_decoder_never_overreads [] [] 0 5 0).2 (by decide)⟩

/-- C2: decoding the 48-byte buffer holding a Created record for "/a.txt"
followed by a Modified record for "/b.txt", each with its exact declared
byte length, yields exactly those two (changeType, path) pairs in order;
with the byte count truncated by one byte the second record's declared
length overruns and decoding yields `MalformedNotification` with no pairs. -/
theorem c2_two_record_decode :
    decodeEvents twoRecordBuffer 48 =
      Except.ok [(ChangeType.created, pathA), (ChangeType.modified, pathB)] ∧
    decodeEvents twoRecordBuffer 47 =
      Except.error WatchError.malformedNotification :=
  ⟨rfl, rfl⟩

/-- Windows `winerror.h` value `ERROR_SUCCESS = 0`. -/
def ERROR_SUCCESS : Nat := 0

/-- Windows `winerror.h` value `ERROR_OPERATION_ABORTED = 995`, the
cancellation-specific completion error code. -/
def ERROR_OPERATION_ABORTED : Nat := 995

/-- The `status` values of a `WatchPoint`, matching the `WATCH_*` constants
of `win_fsnotifier.h` (`WATCH_LISTENING`, `WATCH_NOT_LISTENING`,
`WATCH_FINISHED`, `WATCH_UNINITIALIZED`, `WATCH_FAILED_TO_LISTEN`). -/
inductive WatchStatus where
  | uninit
  | listening
  | notListening
  | failedToListen
  | finished
  deriving DecidableEq

/-- The integer encoding of `WatchStatus` given by the header's `#define`s. -/
def statusCode : WatchStatus → Int
  | WatchStatus.listening => 1
  | WatchStatus.notListening => 2
  | WatchStatus.finished => 3
  | WatchStatus.uninit => -1
  | WatchStatus.failedToListen => -2

/-- Outputs delivered to the caller through `Server::reportEvent` /
`Server::reportFinished` (spec section 6): a decoded change event, a
`WatchOverflow` report, a broken-watch report, and the finished report. -/
inductive Output where
  | event (t : ChangeType) (path : List Nat)
  | overflow
  | broken
  | finishedReport
  deriving DecidableEq

/-- Modelled from the spec: the observable state of one `WatchPoint`
(`open` / `listen` / `handleEvent` / `close` bodies are not under the
available sources). `inFlight` counts asynchronous reads the OS still owns;
`pending` is a completion delivered by the OS but not yet handled by the
run loop (error code, bytes transferred); `buffer` is the single decode
buffer the header declares as `FILE_NOTIFY_INFORMATION* buffer`;
`terminalCompletionObserved` records that the run loop has handled a
terminal completion (cancellation acknowledgment or failure);
`handleReleased` records that `close()` released the directory handle. -/
structure WPState where
  status : WatchStatus
  inFlight : Nat
  pending : Option (Nat × Nat)
  buffer : List Nat
  stopRequested : Bool
  terminalCompletionObserved : Bool
  handleReleased : Bool
  deriving DecidableEq

/-- A fresh `WatchPoint` right after construction: uninitialized, no read
issued, one zeroed decode buffer of `EVENT_BUFFER_SIZE` bytes. -/
def initialState : WPState :=
  { status := WatchStatus.uninit
    inFlight := 0
    pending := none
    buffer := List.replicate EVENT_BUFFER_SIZE 0
    stopRequested := false
    terminalCompletionObserved := false
    handleReleased := false }

/-- Modelled from the spec: the transition relation of one `WatchPoint`
driven by the run loop and the OS (spec sections 4.2, 5 and 7), labelled
with the outputs reported to the caller. The OS delivers a completion only
for an outstanding read and writes only into the watch point's own
fixed-size buffer; the run loop handles one delivered completion at a time:
data completions decode and re-arm, the zero-byte completion is the OS
overflow report, `ERROR_OPERATION_ABORTED` is the expected cancellation
acknowledgment, any other error breaks the watch, and `close()` happens
only after a terminal completion has been observed. -/
inductive Step : WPState → List Output → WPState → Prop where
  | issueReadOk (s : WPState) (h : s.status = WatchStatus.uninit) :
      Step s [] { s with status := WatchStatus.listening, inFlight := s.inFlight + 1 }
  | issueReadFail (s : WPState) (h : s.status = WatchStatus.uninit) :
      Step s [] { s with status := WatchStatus.failedToListen }
  | osDeliver (s : WPState) (ec bytes : Nat) (buf : List Nat)
      (h1 : 1 ≤ s.inFlight) (h2 : s.pending = none)
      (hb : buf.length = EVENT_BUFFER_SIZE) (hn : bytes ≤ EVENT_BUFFER_SIZE) :
      Step s [] { s with inFlight := s.inFlight - 1, pending := some (ec, bytes), buffer := buf }
  | handleData (s : WPState) (bytes : Nat) (evs : List (ChangeType × List Nat))
      (h : s.pending = some (ERROR_SUCCESS, bytes)) (hb : 0 < bytes)
      (hst : s.status = WatchStatus.listening)
      (hdec : decodeEvents s.buffer bytes = Except.ok evs) :
      Step s (evs.map (fun e => Output.event e.1 e.2))
        { s with pending := none, inFlight := s.inFlight + 1 }
  | handleDataMalformed (s : WPState) (bytes : Nat) (e : WatchError)
      (h : s.pending = some (ERROR_SUCCESS, bytes)) (hb : 0 < bytes)
      (hst : s.status = WatchStatus.listening)
      (hdec : decodeEvents s.buffer bytes = Except.error e) :
      Step s [Output.broken, Output.finishedReport]
        { s with pending := none, terminalCompletionObserved := true }
  | handleOverflow (s : WPState)
      (h : s.pending = some (ERROR_SUCCESS, 0)) (hst : s.status = WatchStatus.listening) :
      Step s [Output.overflow] { s with pending := none, inFlight := s.inFlight + 1 }
  | requestStop (s : WPState) (hst : s.status = WatchStatus.listening) :
      Step s [] { s with status := WatchStatus.notListening, stopRequested := true }
  | handleCancelled (s : WPState) (bytes : Nat)
      (h : s.pending = some (ERROR_OPERATION_ABORTED, bytes)) :
      Step s [Output.finishedReport]
        { s with pending := none, terminalCompletionObserved := true }
  | handleFailure (s : WPState) (ec bytes : Nat)
      (h : s.pending = some (ec, bytes)) (h0 : ec ≠ ERROR_SUCCESS)
      (hc : ec ≠ ERROR_OPERATION_ABORTED) :
      Step s [Output.broken, Output.finishedReport]
        { s with pending := none, terminalCompletionObserved := true }
  | close (s : WPState)
      (hst : s.status = WatchStatus.listening ∨ s.status = WatchStatus.notListening)
      (hobs : s.terminalCompletionObserved = true) :
      Step s [] { s with status := WatchStatus.finished, handleReleased := true }

/-- The states a `WatchPoint` can reach from construction. -/
inductive Reachable : WPState → Prop where
  | init : Reachable initialState
  | step {s s' : WPState} {out : List Output}
      (hr : Reachable s) (hs : Step s out s') : Reachable s'

/-- Number of delivered-but-unhandled completions (0 or 1). -/
def pendingCount (s : WPState) : Nat :=
  match s.pending with
  | none => 0
  | some _ => 1

/-- The inductive invariant of the `WatchPoint` lifecycle: at most one
asynchronous operation is outstanding (in flight or delivered-unhandled),
an uninitialized watch point has no operation outstanding, after a terminal
completion nothing is outstanding, the handle is released only after the
terminal completion, and the decode buffer always has `EVENT_BUFFER_SIZE`
bytes. -/
def WPInv (s : WPState) : Prop :=
  s.inFlight + pendingCount s ≤ 1 ∧
  (s.status = WatchStatus.uninit →
    s.inFlight = 0 ∧ s.pending = none ∧ s.terminalCompletionObserved = false) ∧
  (s.terminalCompletionObserved = true → s.inFlight = 0 ∧ s.pending = none) ∧
  (s.handleReleased = true → s.terminalCompletionObserved = true) ∧
  s.buffer.length = EVENT_BUFFER_SIZE

lemma wpInv_initial : WPInv initialState := by
  refine ⟨?_, ?_, ?_, ?_, ?_⟩ <;> simp [initialState, pendingCount, WPInv]

lemma wpInv_step {s s' : WPState} {out : List Output}
    (hinv : WPInv s) (hstep : Step s out s') : WPInv s' := by
  obtain ⟨h1, h2, h3, h4, h5⟩ := hinv
  cases hstep with
  | issueReadOk h =>
    obtain ⟨hi, hp, ht⟩ := h2 h
    refine ⟨?_, ?_, ?_, ?_, ?_⟩ <;>
      simp_all [pendingCount]
  | issueReadFail h =>
    obtain ⟨hi, hp, ht⟩ := h2 h
    refine ⟨?_, ?_, ?_, ?_, ?_⟩ <;> simp_all [pendingCount]
  | osDeliver ec bytes buf hif hp hb hn =>
    refine ⟨?_, ?_, ?_, ?_, ?_⟩
    · simp_all [pendingCount]
    · intro hu
      exact absurd (h2 hu).1 (by omega)
    · intro ht
      exact absurd (h3 ht).1 (by omega)
    · intro hrel
      exact h4 hrel
    · exact hb
  | handleData bytes evs h hb hst hdec =>
    refine ⟨?_, ?_, ?_, ?_, ?_⟩ <;>
      simp_all [pendingCount]
  | handleDataMalformed bytes e h hb hst hdec =>
    refine ⟨?_, ?_, ?_, ?_, ?_⟩ <;>
      simp_all [pendingCount]
  | handleOverflow h hst =>
    refine ⟨?_, ?_, ?_, ?_, ?_⟩ <;>
      simp_all [pendingCount]
  | requestStop hst =>
    refine ⟨?_, ?_, ?_, ?_, ?_⟩ <;> simp_all [pendingCount]
  | handleCancelled bytes h =>
    refine ⟨?_, ?_, ?_, ?_, ?_⟩ <;>
      simp_all [pendingCount]
  | handleFailure ec bytes h h0 hc =>
    refine ⟨?_, ?_, ?_, ?_, ?_⟩ <;>
      simp_all [pendingCount]
  | close hst hobs =>
    refine ⟨?_, ?_, ?_, ?_, ?_⟩ <;> simp_all [pendingCount]

lemma wpInv_reachable {s : WPState} (hr : Reachable s) : WPInv s := by
  induction hr with
  | init => exact wpInv_initial
  | step hr hs ih => exact wpInv_step ih hs

/-- C3: in every reachable state of a watch point at most one asynchronous
read is outstanding (in flight or delivered-but-unhandled) against its
single overlapped context and decode buffer, and any step that issues a new
read does so only when no read is in flight and the previous completion has
been handled. -/
theorem c3_single_read_in_flight (s : WPState) (hr : Reachable s) :
    s.inFlight + pendingCount s ≤ 1 ∧
    (∀ (out : List Output) (s' : WPState), Step s out s' →
      s.inFlight < s'.inFlight → s.inFlight = 0 ∧ s'.pending = none) := by
  obtain ⟨h1, h2, h3, h4, h5⟩ := wpInv_reachable hr
  refine ⟨h1, ?_⟩
  intro out s' hstep hlt
  cases hstep with
  | issueReadOk h =>
    obtain ⟨hi, hp, _⟩ := h2 h
    exact ⟨hi, by simpa using hp⟩
  | issueReadFail h =>
    simp at hlt
  | osDeliver ec bytes buf hif hp hb hn =>
    simp at hlt
    omega
  | handleData bytes evs h hb hst hdec =>
    have hpc : pendingCount s = 1 := by simp [pendingCount, h]
    exact ⟨by omega, by simp⟩
  | handleDataMalformed bytes e h hb hst hdec =>
    simp at hlt
  | handleOverflow h hst =>
    have hpc : pendingCount s = 1 := by simp [pendingCount, h]
    exact ⟨by omega, by simp⟩
  | requestStop hst =>
    simp at hlt
  | handleCancelled bytes h =>
    simp at hlt
  | handleFailure ec bytes h h0 hc =>
    simp at hlt
  | close hst hobs =>
    simp at hlt

/-- C4: in every reachable execution, the step that releases the directory
handle (`close()`) happens only when no asynchronous operation is
outstanding against the watch point — nothing in flight, nothing delivered
and unhandled — and only after the terminal (cancellation or failure)
completion has been observed. -/
theorem c4_close_only_after_drain (s : WPState) (out : List Output) (s' : WPState)
    (hr : Reachable s) (hstep : Step s out s') (hrel : s'.handleReleased = true) :
    s.inFlight = 0 ∧ s.pending = none ∧ s.terminalCompletionObserved = true := by
  obtain ⟨h1, h2, h3, h4, h5⟩ := wpInv_reachable hr
  cases hstep
  case close hst hobs => exact ⟨(h3 hobs).1, (h3 hobs).2, hobs⟩
  all_goals
    have hrel' : s.handleReleased = true := by simpa using hrel
  all_goals
    have hterm := h4 hrel'
  all_goals
    exact ⟨(h3 hterm).1, (h3 hterm).2, hterm⟩

/-- C5: when a delivered completion is handled, the cancellation code
`ERROR_OPERATION_ABORTED` is never reported to the caller as a broken
watch — it is the normal stop acknowledgment — while any other non-success
error code is reported as broken and the watch point moves toward Finished
(terminal completion observed) with no read re-armed. -/
theorem c5_cancellation_vs_failure (s s' : WPState) (out : List Output) (ec bytes : Nat)
    (hr : Reachable s) (hstep : Step s out s')
    (hp : s.pending = some (ec, bytes)) (hh : s'.pending = none) :
    (ec = ERROR_OPERATION_ABORTED → Output.broken ∉ out) ∧
    (ec ≠ ERROR_SUCCESS → ec ≠ ERROR_OPERATION_ABORTED →
      Output.broken ∈ out ∧ s'.inFlight = 0 ∧ s'.terminalCompletionObserved = true) := by
  obtain ⟨h1, h2, h3, h4, h5⟩ := wpInv_reachable hr
  cases hstep with
  | issueReadOk h =>
    rw [(h2 h).2.1] at hp
    cases hp
  | issueReadFail h =>
    simp [hp] at hh
  | osDeliver ec' bytes' buf hif hpn hb hn =>
    rw [hpn] at hp
    cases hp
  | handleData bytes' evs h hb hst hdec =>
    rw [h] at hp
    simp only [Option.some.injEq, Prod.mk.injEq] at hp
    obtain ⟨hec, -⟩ := hp
    constructor
    · intro hab
      exact absurd (hec.trans hab) (by decide)
    · intro hne _
      exact absurd hec.symm hne
  | handleDataMalformed bytes' e h hb hst hdec =>
    rw [h] at hp
    simp only [Option.some.injEq, Prod.mk.injEq] at hp
    obtain ⟨hec, -⟩ := hp
    constructor
    · intro hab
      exact absurd (hec.trans hab) (by decide)
    · intro hne _
      exact absurd hec.symm hne
  | handleOverflow h hst =>
    rw [h] at hp
    simp only [Option.some.injEq, Prod.mk.injEq] at hp
    obtain ⟨hec, -⟩ := hp
    constructor
    · intro hab
      exact absurd (hec.trans hab) (by decide)
    · intro hne _
      exact absurd hec.symm hne
  | requestStop hst =>
    simp [hp] at hh
  | handleCancelled bytes' h =>
    rw [h] at hp
    simp only [Option.some.injEq, Prod.mk.injEq] at hp
    obtain ⟨hec, -⟩ := hp
    constructor
    · intro _
      decide
    · intro _ hne
      exact absurd hec.symm hne
  | handleFailure ec' bytes' h h0 hc =>
    rw [h] at hp
    simp only [Option.some.injEq, Prod.mk.injEq] at hp
    obtain ⟨hec, -⟩ := hp
    constructor
    · intro hab
      exact absurd (hec.trans hab) hc
    · intro _ _
      have hpc : pendingCount s = 1 := by simp [pendingCount, h]
      refine ⟨by decide, by simp; omega, by simp⟩
  | close hst hobs =>
    simp [hp] at hh

/-- C6: when the OS overflow report (a success completion carrying zero
bytes) is handled, a `WatchOverflow` event is reported to the caller —
never silently dropped — and the watch continues: it stays Listening, the
read is re-armed, and the watch is not marked terminal. -/
theorem c6_overflow_surfaces (s s' : WPState) (out : List Output)
    (_hr : Reachable s) (hstep : Step s out s')
    (hp : s.pending = some (ERROR_SUCCESS, 0)) (hh : s'.pending = none) :
    Output.overflow ∈ out ∧ s'.status = WatchStatus.listening ∧
    s'.inFlight = s.inFlight + 1 ∧
    s'.terminalCompletionObserved = s.terminalCompletionObserved := by
  cases hstep with
  | issueReadOk h =>
    simp [hp] at hh
  | issueReadFail h =>
    simp [hp] at hh
  | osDeliver ec' bytes' buf hif hpn hb hn =>
    rw [hpn] at hp
    cases hp
  | handleData bytes' evs h hb hst hdec =>
    rw [h] at hp
    simp only [Option.some.injEq, Prod.mk.injEq] at hp
    omega
  | handleDataMalformed bytes' e h hb hst hdec =>
    rw [h] at hp
    simp only [Option.some.injEq, Prod.mk.injEq] at hp
    omega
  | handleOverflow h hst =>
    exact ⟨by decide, by simpa using hst, by simp, by simp⟩
  | requestStop hst =>
    simp [hp] at hh
  | handleCancelled bytes' h =>
    rw [h] at hp
    simp only [Option.some.injEq, Prod.mk.injEq] at hp
    obtain ⟨hec, -⟩ := hp
    exact absurd hec (by decide)
  | handleFailure ec' bytes' h h0 hc =>
    rw [h] at hp
    simp only [Option.some.injEq, Prod.mk.injEq] at hp
    obtain ⟨hec, -⟩ := hp
    exact absurd hec h0
  | close hst hobs =>
    simp [hp] at hh

/-- C9: the decode buffer size is the fixed `EVENT_BUFFER_SIZE = 16 * 1024
= 16384` bytes, and every reachable watch-point state carries a decode
buffer of exactly that many bytes. -/
theorem c9_event_buffer_size :
    EVENT_BUFFER_SIZE = 16 * 1024 ∧ EVENT_BUFFER_SIZE = 16384 ∧
    (∀ s : WPState, Reachable s → s.buffer.length = EVENT_BUFFER_SIZE) :=
  ⟨rfl, rfl, fun _ hr => (wpInv_reachable hr).2.2.2.2⟩

/-- Witness for C9: the freshly constructed watch point's buffer has
`EVENT_BUFFER_SIZE` bytes. -/
theorem c9_event_buffer_size_witness :
    initialState.buffer.length = EVENT_BUFFER_SIZE :=
  c9_event_buffer_size.2.2 initialState Reachable.init

/-- A zeroed decode buffer of the fixed size. -/
def zeroBuffer : List Nat := List.replicate EVENT_BUFFER_SIZE 0

/-- The watch point after its first read is issued: Listening, one read in
flight. -/
def stListening : WPState :=
  { initialState with status := WatchStatus.listening, inFlight := initialState.inFlight + 1 }

/-- The watch point after `requestStop()`: NotListening, the cancelled read
still in flight. -/
def stStopping : WPState :=
  { stListening with status := WatchStatus.notListening, stopRequested := true }

/-- The watch point after the OS delivers the cancellation completion. -/
def stCancelDelivered : WPState :=
  { stStopping with
      inFlight := stStopping.inFlight - 1
      pending := some (ERROR_OPERATION_ABORTED, 0)
      buffer := zeroBuffer }

/-- The watch point after the cancellation acknowledgment is handled. -/
def stDrained : WPState :=
  { stCancelDelivered with pending := none, terminalCompletionObserved := true }

/-- The watch point after the OS delivers an overflow report (a success
completion with zero bytes). -/
def stOverflowDelivered : WPState :=
  { stListening with
      inFlight := stListening.inFlight - 1
      pending := some (ERROR_SUCCESS, 0)
      buffer := zeroBuffer }

lemma step_issue_first : Step initialState [] stListening :=
  Step.issueReadOk initialState rfl

lemma step_request_stop : Step stListening [] stStopping :=
  Step.requestStop stListening rfl

lemma step_deliver_cancel : Step stStopping [] stCancelDelivered :=
  Step.osDeliver stStopping ERROR_OPERATION_ABORTED 0 zeroBuffer (by decide) rfl
    (List.length_replicate EVENT_BUFFER_SIZE 0) (Nat.zero_le _)

lemma step_handle_cancel : Step stCancelDelivered [Output.finishedReport] stDrained :=
  Step.handleCancelled stCancelDelivered 0 rfl

lemma step_deliver_overflow : Step stListening [] stOverflowDelivered :=
  Step.osDeliver stListening ERROR_SUCCESS 0 zeroBuffer (by decide) rfl
    (List.length_replicate EVENT_BUFFER_SIZE 0) (Nat.zero_le _)

lemma reachable_stListening : Reachable stListening :=
  Reachable.step Reachable.init step_issue_first

lemma reachable_stStopping : Reachable stStopping :=
  Reachable.step reachable_stListening step_request_stop

lemma reachable_stCancelDelivered : Reachable stCancelDelivered :=
  Reachable.step reachable_stStopping step_deliver_cancel

lemma reachable_stDrained : Reachable stDrained :=
  Reachable.step reachable_stCancelDelivered step_handle_cancel

lemma reachable_stOverflowDelivered : Reachable stOverflowDelivered :=
  Reachable.step reachable_stListening step_deliver_overflow

/-- Witness for C3: at the fresh watch point no read is outstanding, and
the first issued read starts from zero in flight with no unhandled
completion left behind. -/
theorem c3_single_read_in_flight_witness :
    initialState.inFlight + pendingCount initialState ≤ 1 ∧
    (initialState.inFlight = 0 ∧ stListening.pending = none) :=
  ⟨(c3_single_read_in_flight initialState Reachable.init).1,
   (c3_single_read_in_flight initialState Reachable.init).2 [] stListening
     step_issue_first (by decide)⟩

/-- Witness for C4: along the concrete stop sequence (issue, stop, deliver
cancellation, handle it, close) the state right before `close()` has
nothing in flight, nothing pending, and the cancellation observed. -/
theorem c4_close_only_after_drain_witness :
    stDrained.inFlight = 0 ∧ stDrained.pending = none ∧
    stDrained.terminalCompletionObserved = true :=
  c4_close_only_after_drain stDrained []
    { stDrained with status := WatchStatus.finished, handleReleased := true }
    reachable_stDrained
    (Step.close stDrained (Or.inr rfl) rfl) rfl

/-- Witness for C5: handling the concrete cancellation completion reports
no broken watch. -/
theorem c5_cancellation_vs_failure_witness :
    Output.broken ∉ [Output.finishedReport] :=
  (c5_cancellation_vs_failure stCancelDelivered stDrained [Output.finishedReport]
      ERROR_OPERATION_ABORTED 0 reachable_stCancelDelivered step_handle_cancel
      rfl rfl).1 rfl

/-- Witness for C6: handling the concrete overflow completion reports
`WatchOverflow`, keeps the watch Listening and re-arms the read. -/
theorem c6_overflow_surfaces_witness :
    Output.overflow ∈ [Output.overflow] ∧
    ({ stOverflowDelivered with
        pending := none,
        inFlight := stOverflowDelivered.inFlight + 1 } : WPState).status =
      WatchStatus.listening ∧
    ({ stOverflowDelivered with
        pending := none,
        inFlight := stOverflowDelivered.inFlight + 1 } : WPState).inFlight =
      stOverflowDelivered.inFlight + 1 ∧
    ({ stOverflowDelivered with
        pending := none,
        inFlight := stOverflowDelivered.inFlight + 1 } : WPState).terminalCompletionObserved =
      stOverflowDelivered.terminalCompletionObserved :=
  c6_overflow_surfaces stOverflowDelivered
    { stOverflowDelivered with pending := none, inFlight := stOverflowDelivered.inFlight + 1 }
    [Output.overflow] reachable_stOverflowDelivered
    (Step.handleOverflow stOverflowDelivered rfl rfl) rfl rfl

/-- A path is a list of UTF-16 code units (`u16string` in the header). -/
def lookupPath (reg : List (List Nat × WPState)) (p : List Nat) : Option WPState :=
  match reg with
  | [] => none
  | (q, wp) :: rest => if q = p then some wp else lookupPath rest p

/-- A watch point freshly armed and listening, as registered on a
successful `startWatching`. -/
def listeningWatchPoint : WPState := stListening

/-- Modelled from the spec: `Server::startWatching` (body not under the
available sources). If the path is already present in the `watchPoints`
registry, the call fails with `AlreadyWatched` and the registry is
unchanged; otherwise a watch point is opened, armed and registered. -/
def startWatching (reg : List (List Nat × WPState)) (p : List Nat) :
    Except WatchError Unit × List (List Nat × WPState) :=
  match lookupPath reg p with
  | some _ => (Except.error WatchError.alreadyWatched, reg)
  | none => (Except.ok (), (p, listeningWatchPoint) :: reg)

/-- Modelled from the spec: `Server::stopWatching` (body not under the
available sources). If the path is absent from the registry the call fails
with `NotWatched` and reports nothing; otherwise the watch point's stop is
requested and the call returns once it is NotListening. The third component
is the list of `reportEvent` / `reportFinished` outputs the call itself
produces. -/
def stopWatching (reg : List (List Nat × WPState)) (p : List Nat) :
    Except WatchError Unit × List (List Nat × WPState) × List Output :=
  match lookupPath reg p with
  | none => (Except.error WatchError.notWatched, reg, [])
  | some _ =>
    (Except.ok (),
     reg.map (fun e =>
       if e.1 = p then
         (e.1, { e.2 with status := WatchStatus.notListening, stopRequested := true })
       else e),
     [])

/-- C7: starting a watch on a path that is already registered fails with
`AlreadyWatched`, leaves the registry unchanged, and the first watch's
entry — still the same watch point, in particular still Listening when it
was — is untouched. -/
theorem c7_already_watched (reg : List (List Nat × WPState)) (p : List Nat)
    (wp : WPState) (h : lookupPath reg p = some wp) :
    startWatching reg p = (Except.error WatchError.alreadyWatched, reg) ∧
    lookupPath (startWatching reg p).2 p = some wp := by
  constructor
  · unfold startWatching
    rw [h]
  · unfold startWatching
    rw [h]
    exact h

/-- Witness for C7: a singleton registry holding a Listening watch point
rejects a second start on the same path and keeps the entry. -/
theorem c7_already_watched_witness :
    startWatching [([97], listeningWatchPoint)] [97] =
      (Except.error WatchError.alreadyWatched, [([97], listeningWatchPoint)]) ∧
    lookupPath (startWatching [([97], listeningWatchPoint)] [97]).2 [97] =
      some listeningWatchPoint :=
  c7_already_watched [([97], listeningWatchPoint)] [97] listeningWatchPoint rfl

/-- C8: stopping a watch on a path that is not registered fails with
`NotWatched`, leaves the registry unchanged, and produces no report — no
`reportEvent` and no `reportFinished` output. -/
theorem c8_not_watched (reg : List (List Nat × WPState)) (p : List Nat)
    (h : lookupPath reg p = none) :
    stopWatching reg p = (Except.error WatchError.notWatched, reg, []) := by
  unfold stopWatching
  rw [h]

/-- Witness for C8: stopping any path on the empty registry fails with
`NotWatched` and reports nothing. -/
theorem c8_not_watched_witness :
    stopWatching [] [98] = (Except.error WatchError.notWatched, [], []) :=
  c8_not_watched [] [98] rfl

/-- C10: the registration mask `EVENT_MASK` is exactly the union of the
file-name, directory-name, attribute, size and last-write change classes —
each of those five classes is notified — while a security-descriptor,
creation-time or last-access-time change lies outside the mask and
produces no notification record. -/
theorem c10_event_mask_classes :
    EVENT_MASK = FILE_NOTIFY_CHANGE_FILE_NAME ||| FILE_NOTIFY_CHANGE_DIR_NAME |||
      FILE_NOTIFY_CHANGE_ATTRIBUTES ||| FILE_NOTIFY_CHANGE_SIZE |||
      FILE_NOTIFY_CHANGE_LAST_WRITE ∧
    osProducesRecord FILE_NOTIFY_CHANGE_FILE_NAME = true ∧
    osProducesRecord FILE_NOTIFY_CHANGE_DIR_NAME = true ∧
    osProducesRecord FILE_NOTIFY_CHANGE_ATTRIBUTES = true ∧
    osProducesRecord FILE_NOTIFY_CHANGE_SIZE = true ∧
    osProducesRecord FILE_NOTIFY_CHANGE_LAST_WRITE = true ∧
    osProducesRecord FILE_NOTIFY_CHANGE_SECURITY = false ∧
    osProducesRecord FILE_NOTIFY_CHANGE_CREATION = false ∧
    osProducesRecord FILE_NOTIFY_CHANGE_LAST_ACCESS = false := by
  refine ⟨rfl, ?_, ?_, ?_, ?_, ?_, ?_, ?_, ?_⟩ <;> decide
